import Mathlib

/-!
Shallow embedding of the RAG orchestration core of `demo-rag-api`
(`app/services/sk.py` and `app/services/retrival_plugins.py`, with the
DTOs of `app/models/api_models.py`).

External collaborators (prompt files, the Azure chat-completion service,
the embeddings client, the Azure AI Search index, and the tool-enabled
chat-completion call of the semantic-kernel framework) are modelled as an
environment of oracles; every external call the orchestrators actually
issue is recorded, in source order, in a trace of call events, so that
claims about which calls are made (and with which arguments) are provable.
Machine floats (the embedding vectors) never enter any computation in the
orchestrators: they are passed opaquely from the embeddings client to the
search client, so the vector type is an abstract type parameter `E`.
-/

deriving instance DecidableEq for Except

/-- One character of Python's `str.lower()`: ASCII uppercase letters are
shifted to lowercase, everything else is unchanged (the role strings the
service compares are ASCII). -/
def lowerChar (c : Char) : Char :=
  if c.toNat ≥ 65 ∧ c.toNat ≤ 90 then Char.ofNat (c.toNat + 32) else c

/-- Python's `str.lower()` on the ASCII role strings: `message.role.lower()`. -/
def pyLower (s : String) : String := String.mk (s.data.map lowerChar)

/-- Roles of messages inside a semantic-kernel `ChatHistory`
(`add_system_message`, `add_user_message`, `add_assistant_message`). -/
inductive Role where
  | system
  | user
  | assistant
  deriving DecidableEq, Repr

/-- One message of a semantic-kernel `ChatHistory`. -/
structure HistMsg where
  role : Role
  content : String
  deriving DecidableEq, Repr

/-- A semantic-kernel `ChatHistory`: the ordered list of messages added. -/
abbrev ChatHistoryL := List HistMsg

/-- `ChatHistory.add_system_message`. -/
def addSystemMessage (h : ChatHistoryL) (s : String) : ChatHistoryL :=
  h ++ [{ role := Role.system, content := s }]

/-- `ChatHistory.add_user_message`. -/
def addUserMessage (h : ChatHistoryL) (s : String) : ChatHistoryL :=
  h ++ [{ role := Role.user, content := s }]

/-- `ChatHistory.add_assistant_message`. -/
def addAssistantMessage (h : ChatHistoryL) (s : String) : ChatHistoryL :=
  h ++ [{ role := Role.assistant, content := s }]

/-- `app/models/api_models.py` `ChatMessage` (the optional `user` field is
present in the DTO but never read by the orchestrators). -/
structure ChatMessage where
  role : String
  content : String
  user : Option String := none
  deriving DecidableEq, Repr

/-- `app/models/api_models.py` `ChatRequest`. -/
structure ChatRequest where
  messages : List ChatMessage := []
  deriving DecidableEq, Repr

/-- `app/models/api_models.py` `ExecutionStep`. -/
structure ExecutionStep where
  name : String
  content : String
  deriving DecidableEq, Repr

/-- `app/models/api_models.py` `ExecutionDiagnostics`. -/
structure ExecutionDiagnostics where
  steps : List ExecutionStep := []
  deriving DecidableEq, Repr

/-- `app/models/api_models.py` `RequestResult`. -/
structure RequestResult where
  content : String
  execution_diagnostics : ExecutionDiagnostics := {}
  deriving DecidableEq, Repr

/-- Error outcomes of an orchestration run.  `emptyConversation` is the
`ValueError("No messages found in request.")` of both orchestrators; the
remaining constructors name the failure modes of the external collaborators
(spec taxonomy, section 7).  `agentRoundLimitExceeded` is included so that
its absence from the code paths of this repository is expressible. -/
inductive Err where
  | emptyConversation
  | retrievalUnavailable
  | chatServiceUnavailable
  | promptNotFound
  | agentRoundLimitExceeded
  deriving DecidableEq, Repr

/-- One hit returned by the Azure AI Search client.  `run_rag` reads the
fields with `result.get("title", ...)` / `result.get("chunk", ...)`, so both
are optional. -/
structure SearchDoc where
  title : Option String
  chunk : Option String
  deriving DecidableEq, Repr

/-- `app/services/retrival_plugins.py` `KnowledgeSource`. -/
structure KnowledgeSource where
  name : String
  content : String
  deriving DecidableEq, Repr

/-- One external call issued by an orchestrator, recorded in source order.
`E` is the opaque type of embedding vectors. -/
inductive CallEvent (E : Type) where
  | readFile (name : String)
  | chatCall (history : ChatHistoryL)
  | chatToolCall (history : ChatHistoryL)
  | embedCall (input : String)
  | searchCall (vector : E) (knn : Nat) (top : Nat)
  deriving DecidableEq, Repr

/-- The external collaborators consumed by `SemanticKernelService`:
`FileService.read_file`, `get_chat_message_content` (plain), the embeddings
client, the search client, and `get_chat_message_content` with
`FunctionChoiceBehavior.Auto` (the tool-enabled framework call that runs the
whole agent loop internally). -/
structure Env (E : Type) where
  readFile : String → String
  chatComplete : ChatHistoryL → Except Err String
  embed : String → Except Err E
  search : E → Nat → Nat → Except Err (List SearchDoc)
  chatWithTools : ChatHistoryL → Except Err String

/-- The role filter both orchestrators apply when copying request messages
into a `ChatHistory` (`if message.role.lower() == "user": ... elif
message.role.lower() == "assistant": ...`, any other role falls through). -/
def roleFilterAdd (h : ChatHistoryL) (m : ChatMessage) : ChatHistoryL :=
  if pyLower m.role = "user" then addUserMessage h m.content
  else if pyLower m.role = "assistant" then addAssistantMessage h m.content
  else h

/-- The turn (if any) a request message contributes under the role filter. -/
def toHistTurn? (m : ChatMessage) : Option HistMsg :=
  if pyLower m.role = "user" then some { role := Role.user, content := m.content }
  else if pyLower m.role = "assistant" then some { role := Role.assistant, content := m.content }
  else none

/-- One `<source>...</source>` block of `run_rag` step 3:
`f"<source><name>{source}</name><content>{content}</content></source>"`. -/
def sourceBlock (source content : String) : String :=
  "<source><name>" ++ source ++ "</name><content>" ++ content ++ "</content></source>"

/-- The block of one search result, with the code's `.get` defaults. -/
def docBlock (r : SearchDoc) : String :=
  sourceBlock (r.title.getD "Unknown Source") (r.chunk.getD "No Content")

/-- `results = "\n".join(results)` over the per-hit blocks. -/
def renderResults (docs : List SearchDoc) : String :=
  String.intercalate "\n" (docs.map docBlock)

/-- The grounded user turn of `run_rag` step 4:
`("Sources:\n\n" + results + "\n\n" + "\n\nQuestion: " + user_question)`. -/
def buildGroundedTurn (question : String) (docs : List SearchDoc) : String :=
  "Sources:\n\n" ++ renderResults docs ++ "\n\n" ++ "\n\nQuestion: " ++ question

/-- Placeholder message for `List.getLastD`; never reached, because the
orchestrators only take the last message of a non-empty list. -/
def defaultChatMessage : ChatMessage := { role := "", content := "" }

/-- The rewrite history of `run_rag` step 1: the search system prompt
followed by the role-filtered request messages. -/
def rewriteHistoryL {E : Type} (env : Env E) (msgs : List ChatMessage) : ChatHistoryL :=
  msgs.foldl roleFilterAdd (addSystemMessage [] (env.readFile "RAGSearchSystemPrompt.txt"))

/-- The generation history of `run_rag` step 4: the RAG system prompt,
the role-filtered `request.messages[:-1]`, then the grounded user turn built
from `request.messages[-1].content` and the retrieved docs. -/
def generationHistoryL {E : Type} (env : Env E) (msgs : List ChatMessage)
    (docs : List SearchDoc) : ChatHistoryL :=
  addUserMessage
    (msgs.dropLast.foldl roleFilterAdd (addSystemMessage [] (env.readFile "RAGSystemPrompt.txt")))
    (buildGroundedTurn (msgs.getLastD defaultChatMessage).content docs)

/-- The agent history of `run_rag_agent`: the agent system prompt followed
by all role-filtered request messages. -/
def agentHistoryL {E : Type} (env : Env E) (msgs : List ChatMessage) : ChatHistoryL :=
  msgs.foldl roleFilterAdd (addSystemMessage [] (env.readFile "RAGAgentSystemPrompt.txt"))

/-- Body of `run_rag` for a non-empty message list, with the trace of
external calls issued up to the point where the run ends.  Mirrors
`SemanticKernelService.run_rag` line by line: read the search system prompt,
rewrite-call the chat service, embed the rewritten query, vector-search with
`k_nearest_neighbors=5, top=10`, read the RAG system prompt, build the
grounded history, and make the generation call; the returned
`RequestResult` carries the diagnostics list exactly as the code builds it
(`kernel_arguments["diagnostics"] = []`, never appended to). -/
def run_rag_core {E : Type} (env : Env E) (msgs : List ChatMessage) :
    Except Err RequestResult × List (CallEvent E) :=
  let sh := rewriteHistoryL env msgs
  match env.chatComplete sh with
  | Except.error e =>
      (Except.error e,
       [CallEvent.readFile "RAGSearchSystemPrompt.txt", CallEvent.chatCall sh])
  | Except.ok search_query =>
    match env.embed search_query with
    | Except.error e =>
        (Except.error e,
         [CallEvent.readFile "RAGSearchSystemPrompt.txt", CallEvent.chatCall sh,
          CallEvent.embedCall search_query])
    | Except.ok query_embeddings =>
      match env.search query_embeddings 5 10 with
      | Except.error e =>
          (Except.error e,
           [CallEvent.readFile "RAGSearchSystemPrompt.txt", CallEvent.chatCall sh,
            CallEvent.embedCall search_query, CallEvent.searchCall query_embeddings 5 10])
      | Except.ok search_results =>
        let gh := generationHistoryL env msgs search_results
        match env.chatComplete gh with
        | Except.error e =>
            (Except.error e,
             [CallEvent.readFile "RAGSearchSystemPrompt.txt", CallEvent.chatCall sh,
              CallEvent.embedCall search_query, CallEvent.searchCall query_embeddings 5 10,
              CallEvent.readFile "RAGSystemPrompt.txt", CallEvent.chatCall gh])
        | Except.ok chat_result =>
            (Except.ok { content := chat_result, execution_diagnostics := { steps := [] } },
             [CallEvent.readFile "RAGSearchSystemPrompt.txt", CallEvent.chatCall sh,
              CallEvent.embedCall search_query, CallEvent.searchCall query_embeddings 5 10,
              CallEvent.readFile "RAGSystemPrompt.txt", CallEvent.chatCall gh])

/-- `SemanticKernelService.run_rag`.  The guard
`if not request.messages: raise ValueError(...)` comes first; afterwards the
pipeline body runs on the (non-empty) message list. -/
def run_rag {E : Type} (env : Env E) (request : ChatRequest) :
    Except Err RequestResult × List (CallEvent E) :=
  match request.messages with
  | [] => (Except.error Err.emptyConversation, [])
  | m0 :: rest0 => run_rag_core env (m0 :: rest0)

/-- `SemanticKernelService.run_rag_agent`: the same empty-conversation
guard, then one single tool-enabled chat call on the agent history; the
whole tool loop happens inside that external call.  The diagnostics list is
again created empty and never appended to. -/
def run_rag_agent {E : Type} (env : Env E) (request : ChatRequest) :
    Except Err RequestResult × List (CallEvent E) :=
  match request.messages with
  | [] => (Except.error Err.emptyConversation, [])
  | m0 :: rest0 =>
    let ah := agentHistoryL env (m0 :: rest0)
    match env.chatWithTools ah with
    | Except.error e =>
        (Except.error e, [CallEvent.readFile "RAGAgentSystemPrompt.txt", CallEvent.chatToolCall ah])
    | Except.ok chat_result =>
        (Except.ok { content := chat_result, execution_diagnostics := { steps := [] } },
         [CallEvent.readFile "RAGAgentSystemPrompt.txt", CallEvent.chatToolCall ah])

/-- The external collaborators consumed by `RetrivalPlugin.get_sources`
(its own embeddings client and search client). -/
structure PluginEnv (E : Type) where
  embed : String → Except Err E
  search : E → Nat → Nat → Except Err (List SearchDoc)

/-- The mapping of `get_sources` over the search hits, which reads
`result["title"]` and `result["chunk"]` directly: a missing key raises
(`KeyError`), modelled by `none`. -/
def mapKnowledgeSources : List SearchDoc → Option (List KnowledgeSource)
  | [] => some []
  | r :: rs =>
    match r.title, r.chunk, mapKnowledgeSources rs with
    | some t, some c, some ks => some ({ name := t, content := c } :: ks)
    | _, _, _ => none

/-- `RetrivalPlugin.get_sources`: embed the query, vector-search with
`k_nearest_neighbors=5, top=10`, map the hits to `KnowledgeSource`; the
enclosing `try/except Exception` catches every failure (embedding error,
search error, `KeyError` in the mapping) and returns the empty list, so the
function has no error outcome at all. -/
def get_sources {E : Type} (env : PluginEnv E) (query_text : String) : List KnowledgeSource :=
  match env.embed query_text with
  | Except.error _ => []
  | Except.ok emb =>
    match env.search emb 5 10 with
    | Except.error _ => []
    | Except.ok results =>
      match mapKnowledgeSources results with
      | none => []
      | some ks => ks

/-- The chat calls (plain `get_chat_message_content` without tools)
occurring in a trace, in order. -/
def chatCallsOf {E : Type} (tr : List (CallEvent E)) : List ChatHistoryL :=
  tr.filterMap fun e =>
    match e with
    | CallEvent.chatCall h => some h
    | _ => none

/-- The content of the conversation's final user-role turn, as the spec
words it ("the conversation's final user turn's literal text"); written
from the spec, for comparison against what the code actually uses. -/
def specFinalUserContent (msgs : List ChatMessage) : Option String :=
  ((msgs.filter fun m => pyLower m.role = "user").getLast?).map fun m => m.content

/-- The grounded turn as the spec words it ("concatenates blocks in given
order, separated by blank lines, followed by the literal question");
identical to `buildGroundedTurn` except that consecutive blocks are
separated by a blank line.  Written from the spec, for comparison. -/
def specGroundedTurnBlankSep (question : String) (docs : List SearchDoc) : String :=
  "Sources:\n\n" ++ String.intercalate "\n\n" (docs.map docBlock) ++
    "\n\n" ++ "\n\nQuestion: " ++ question

/-! ### Concrete collaborator behaviours, for evaluating the model -/

/-- A concrete search hit. -/
def dA : SearchDoc := { title := some "ManualA", chunk := some "PassageA" }

/-- A fully successful environment: the rewrite call (recognised by its
search system prompt) answers with a rewritten query, every other plain
chat call answers with a final answer, embedding and search succeed. -/
def envA : Env Nat where
  readFile := fun name =>
    if name = "RAGSearchSystemPrompt.txt" then "SYS-SEARCH"
    else if name = "RAGSystemPrompt.txt" then "SYS-RAG"
    else "SYS-AGENT"
  chatComplete := fun h =>
    match h with
    | { role := Role.system, content := "SYS-SEARCH" } :: _ => Except.ok "rewritten query"
    | _ => Except.ok "final answer"
  embed := fun _ => Except.ok 42
  search := fun _ _ _ => Except.ok [dA]
  chatWithTools := fun _ => Except.ok "agent answer"

/-- Like `envA`, but the search backend is unavailable. -/
def envSearchFail : Env Nat where
  readFile := envA.readFile
  chatComplete := envA.chatComplete
  embed := envA.embed
  search := fun _ _ _ => Except.error Err.retrievalUnavailable
  chatWithTools := envA.chatWithTools

/-- Like `envA`, but the tool-enabled framework call comes back with empty
content (a model that never produced a final message). -/
def envNoFinal : Env Nat where
  readFile := envA.readFile
  chatComplete := envA.chatComplete
  embed := envA.embed
  search := envA.search
  chatWithTools := fun _ => Except.ok ""

/-- A plugin environment whose search backend is unavailable. -/
def pluginEnvFail : PluginEnv Nat where
  embed := fun _ => Except.ok 42
  search := fun _ _ _ => Except.error Err.retrievalUnavailable

/-! ### Shared lemmas -/

/-- Folding the role filter over a message list appends exactly the
role-filtered turns, in order. -/
theorem foldl_roleFilterAdd (msgs : List ChatMessage) (h : ChatHistoryL) :
    msgs.foldl roleFilterAdd h = h ++ msgs.filterMap toHistTurn? := by
  induction msgs generalizing h with
  | nil => simp
  | cons m ms ih =>
    by_cases h1 : pyLower m.role = "user"
    · simp [roleFilterAdd, toHistTurn?, h1, ih, addUserMessage]
    · by_cases h2 : pyLower m.role = "assistant"
      · simp [roleFilterAdd, toHistTurn?, h1, h2, ih, addAssistantMessage]
      · simp [roleFilterAdd, toHistTurn?, h1, h2, ih]

/-! ### Concrete requests -/

/-- A one-turn conversation. -/
def reqU1 : ChatRequest := { messages := [{ role := "user", content := "raw question" }] }

/-- A conversation whose final turn is an assistant turn. -/
def reqUA : ChatRequest :=
  { messages := [{ role := "user", content := "A" }, { role := "assistant", content := "B" }] }

/-- A conversation whose final turn carries the role "system". -/
def reqUS : ChatRequest :=
  { messages := [{ role := "user", content := "A" }, { role := "system", content := "S" }] }

/-! ### Claims -/

/-- Claim C2: for every request whose conversation has zero turns, both
orchestrators fail with the empty-conversation error before making any
external call — the recorded call trace is empty. -/
theorem run_rag_empty_conversation {E : Type} (env : Env E) (request : ChatRequest)
    (h : request.messages = []) :
    run_rag env request = (Except.error Err.emptyConversation, []) ∧
    run_rag_agent env request = (Except.error Err.emptyConversation, []) := by
  constructor <;> simp [run_rag, run_rag_agent, h]

/-- Claim C2 witness: the empty request, against the concrete environment. -/
theorem run_rag_empty_conversation_witness :
    run_rag envA { messages := [] } = (Except.error Err.emptyConversation, []) ∧
    run_rag_agent envA { messages := [] } = (Except.error Err.emptyConversation, []) :=
  run_rag_empty_conversation envA { messages := [] } rfl

/-- Claim C5: building the grounded turn with zero passages is total and
yields the fixed no-sources skeleton around the literal question, and the
builder is deterministic — equal (question, passages) inputs always give
byte-identical output. -/
theorem buildGroundedTurn_empty_and_deterministic :
    (∀ q : String, buildGroundedTurn q [] = "Sources:\n\n\n\n\n\nQuestion: " ++ q) ∧
    (∀ (q1 q2 : String) (ps1 ps2 : List SearchDoc),
      q1 = q2 → ps1 = ps2 → buildGroundedTurn q1 ps1 = buildGroundedTurn q2 ps2) := by
  constructor
  · intro q; rfl
  · intro q1 q2 ps1 ps2 hq hp; rw [hq, hp]

/-- Claim C5 witness: the no-sources output at a concrete question, and
determinism at a concrete (question, passages) pair. -/
theorem buildGroundedTurn_empty_and_deterministic_witness :
    buildGroundedTurn "Q" [] = "Sources:\n\n\n\n\n\nQuestion: " ++ "Q" ∧
    buildGroundedTurn "Q" [dA] = buildGroundedTurn "Q" [dA] :=
  ⟨buildGroundedTurn_empty_and_deterministic.1 "Q",
   buildGroundedTurn_empty_and_deterministic.2 "Q" "Q" [dA] [dA] rfl rfl⟩

/-- Claim C4 counterexample: with two concrete passages the builder joins
the two tagged blocks with a single newline, not a blank line; the output
differs from the spec-worded blank-line-separated assembly of the same
blocks. -/
theorem buildGroundedTurn_single_newline_counterexample :
    buildGroundedTurn "Q" [dA, { title := some "T2", chunk := some "C2" }] =
      "Sources:\n\n<source><name>ManualA</name><content>PassageA</content></source>\n<source><name>T2</name><content>C2</content></source>\n\n\n\nQuestion: Q" ∧
    buildGroundedTurn "Q" [dA, { title := some "T2", chunk := some "C2" }] ≠
      specGroundedTurnBlankSep "Q" [dA, { title := some "T2", chunk := some "C2" }] := by
  constructor <;> decide

/-- Claim C4 (amended): the grounded turn wraps each passage in a tagged
block with exactly the tag names source, name and content, joins the blocks
in the given input order separated by a single newline, and places the
literal question after the blocks; the i-th block is the block of the i-th
input passage. -/
theorem buildGroundedTurn_shape (q : String) (docs : List SearchDoc) :
    buildGroundedTurn q docs =
      "Sources:\n\n" ++
        String.intercalate "\n"
          (docs.map fun r =>
            "<source><name>" ++ r.title.getD "Unknown Source" ++ "</name><content>" ++
              r.chunk.getD "No Content" ++ "</content></source>") ++
        "\n\n" ++ "\n\nQuestion: " ++ q ∧
    ∀ i (hi : i < docs.length),
      (docs.map docBlock).get ⟨i, by simpa using hi⟩ =
        sourceBlock ((docs.get ⟨i, hi⟩).title.getD "Unknown Source")
          ((docs.get ⟨i, hi⟩).chunk.getD "No Content") := by
  constructor
  · rfl
  · intro i hi
    simp [docBlock, sourceBlock]

/-- Claim C4 witness: the amended statement at a concrete question, passage
list and block index. -/
theorem buildGroundedTurn_shape_witness :
    buildGroundedTurn "Q" [dA] =
      "Sources:\n\n" ++
        String.intercalate "\n"
          ([dA].map fun r =>
            "<source><name>" ++ r.title.getD "Unknown Source" ++ "</name><content>" ++
              r.chunk.getD "No Content" ++ "</content></source>") ++
        "\n\n" ++ "\n\nQuestion: " ++ "Q" ∧
    ([dA].map docBlock).get ⟨0, by simp⟩ =
      sourceBlock (([dA].get ⟨0, by simp⟩).title.getD "Unknown Source")
        (([dA].get ⟨0, by simp⟩).chunk.getD "No Content") :=
  ⟨(buildGroundedTurn_shape "Q" [dA]).1, (buildGroundedTurn_shape "Q" [dA]).2 0 (by simp)⟩

/-- Claim C6: when retrieval fails inside the agent tool — the embedding
call or the search call errors, in particular with an unavailable search
backend — `get_sources` returns the empty no-sources list instead of
propagating any error, so the framework's tool loop receives an ordinary
tool result and continues. -/
theorem get_sources_swallows_retrieval_failure {E : Type} (env : PluginEnv E) (q : String) :
    (∀ e, env.embed q = Except.error e → get_sources env q = []) ∧
    (∀ (emb : E) (e : Err), env.embed q = Except.ok emb →
      env.search emb 5 10 = Except.error e → get_sources env q = []) := by
  constructor
  · intro e he; simp [get_sources, he]
  · intro emb e hemb hs; simp [get_sources, hemb, hs]

/-- Claim C6 witness: a concrete plugin environment whose search backend
is unavailable. -/
theorem get_sources_swallows_retrieval_failure_witness :
    get_sources pluginEnvFail "oil filter part number" = [] :=
  (get_sources_swallows_retrieval_failure pluginEnvFail "oil filter part number").2
    42 Err.retrievalUnavailable rfl rfl

/-- Claim C1 counterexample: on a concrete one-turn conversation with every
collaborator succeeding, the pipeline returns a result whose diagnostics
list has zero steps, not the claimed four. -/
theorem run_rag_diagnostics_empty_counterexample :
    (run_rag envA reqU1).1 =
      Except.ok { content := "final answer", execution_diagnostics := { steps := [] } } ∧
    ([] : List ExecutionStep).length ≠ 4 := by
  constructor <;> decide

/-- Claim C1 (amended): whenever the pipeline orchestrator returns a
result, the diagnostics of that result contain exactly zero steps — the
diagnostics list is created empty and never appended to. -/
theorem run_rag_diagnostics_always_empty {E : Type} (env : Env E) (request : ChatRequest)
    (r : RequestResult) (h : (run_rag env request).1 = Except.ok r) :
    r.execution_diagnostics.steps = [] := by
  cases hm : request.messages with
  | nil => simp [run_rag, hm] at h
  | cons m0 ms =>
    simp only [run_rag, hm, run_rag_core] at h
    cases hq : env.chatComplete (rewriteHistoryL env (m0 :: ms)) with
    | error e => simp [hq] at h
    | ok q =>
      simp only [hq] at h
      cases hv : env.embed q with
      | error e => simp [hv] at h
      | ok v =>
        simp only [hv] at h
        cases hs : env.search v 5 10 with
        | error e => simp [hs] at h
        | ok docs =>
          simp only [hs] at h
          cases hg : env.chatComplete (generationHistoryL env (m0 :: ms) docs) with
          | error e => simp [hg] at h
          | ok s =>
            simp only [hg, Except.ok.injEq] at h
            rw [← h]

/-- Claim C1 witness: the amended statement evaluated on the concrete
one-turn conversation. -/
theorem run_rag_diagnostics_always_empty_witness :
    ({ content := "final answer",
       execution_diagnostics := { steps := [] } } : RequestResult).execution_diagnostics.steps
      = [] :=
  run_rag_diagnostics_always_empty envA reqU1 _ rfl

/-- Claim C3: in the pipeline, when the rewrite call returns query `q` and
the embeddings client maps `q` to vector `v`, the retrieval call is issued
on `v` — the embedding of the rewritten query, not of the raw last user
turn — with nearest-neighbour breadth 5 and `topK = 10`, directly after the
rewrite and embedding calls. -/
theorem run_rag_retrieval_uses_rewritten_query {E : Type} (env : Env E)
    (request : ChatRequest) (m0 : ChatMessage) (ms : List ChatMessage)
    (q : String) (v : E)
    (hm : request.messages = m0 :: ms)
    (hq : env.chatComplete (rewriteHistoryL env (m0 :: ms)) = Except.ok q)
    (hv : env.embed q = Except.ok v) :
    ∃ rest, (run_rag env request).2 =
      [CallEvent.readFile "RAGSearchSystemPrompt.txt",
       CallEvent.chatCall (rewriteHistoryL env (m0 :: ms)),
       CallEvent.embedCall q,
       CallEvent.searchCall v 5 10] ++ rest := by
  simp only [run_rag, hm, run_rag_core, hq, hv]
  cases hs : env.search v 5 10 with
  | error e => exact ⟨[], by simp⟩
  | ok docs =>
    cases hg : env.chatComplete (generationHistoryL env (m0 :: ms) docs) with
    | error e =>
        exact ⟨[CallEvent.readFile "RAGSystemPrompt.txt",
                CallEvent.chatCall (generationHistoryL env (m0 :: ms) docs)], by simp [hg]⟩
    | ok s =>
        exact ⟨[CallEvent.readFile "RAGSystemPrompt.txt",
                CallEvent.chatCall (generationHistoryL env (m0 :: ms) docs)], by simp [hg]⟩

/-- Claim C3 witness: on the concrete one-turn conversation the search is
issued on the embedding of the rewritten query, which differs from the raw
text of the last user turn. -/
theorem run_rag_retrieval_uses_rewritten_query_witness :
    (∃ rest, (run_rag envA reqU1).2 =
      [CallEvent.readFile "RAGSearchSystemPrompt.txt",
       CallEvent.chatCall (rewriteHistoryL envA ({ role := "user", content := "raw question" } :: [])),
       CallEvent.embedCall "rewritten query",
       CallEvent.searchCall 42 5 10] ++ rest) ∧
    "rewritten query" ≠ "raw question" :=
  ⟨run_rag_retrieval_uses_rewritten_query envA reqU1 _ [] "rewritten query" 42 rfl
     (by decide) (by decide),
   by decide⟩

/-- Claim C7: in pipeline mode a retrieval failure is fatal: the run
returns the retrieval error itself and no result, the trace stops at the
failed search call, and the only plain chat call ever made is the rewrite —
the generation call is never issued. -/
theorem run_rag_retrieval_failure_fatal {E : Type} (env : Env E)
    (request : ChatRequest) (m0 : ChatMessage) (ms : List ChatMessage)
    (q : String) (v : E)
    (hm : request.messages = m0 :: ms)
    (hq : env.chatComplete (rewriteHistoryL env (m0 :: ms)) = Except.ok q)
    (hv : env.embed q = Except.ok v)
    (hs : env.search v 5 10 = Except.error Err.retrievalUnavailable) :
    run_rag env request =
      (Except.error Err.retrievalUnavailable,
       [CallEvent.readFile "RAGSearchSystemPrompt.txt",
        CallEvent.chatCall (rewriteHistoryL env (m0 :: ms)),
        CallEvent.embedCall q, CallEvent.searchCall v 5 10]) ∧
    chatCallsOf (run_rag env request).2 = [rewriteHistoryL env (m0 :: ms)] := by
  have h1 : run_rag env request =
      (Except.error Err.retrievalUnavailable,
       [CallEvent.readFile "RAGSearchSystemPrompt.txt",
        CallEvent.chatCall (rewriteHistoryL env (m0 :: ms)),
        CallEvent.embedCall q, CallEvent.searchCall v 5 10]) := by
    simp only [run_rag, hm, run_rag_core, hq, hv, hs]
  exact ⟨h1, by rw [h1]; rfl⟩

/-- Claim C7 witness: the concrete environment whose search backend is
unavailable, on the one-turn conversation. -/
theorem run_rag_retrieval_failure_fatal_witness :
    run_rag envSearchFail reqU1 =
      (Except.error Err.retrievalUnavailable,
       [CallEvent.readFile "RAGSearchSystemPrompt.txt",
        CallEvent.chatCall (rewriteHistoryL envSearchFail
          ({ role := "user", content := "raw question" } :: [])),
        CallEvent.embedCall "rewritten query", CallEvent.searchCall 42 5 10]) ∧
    chatCallsOf (run_rag envSearchFail reqU1).2 =
      [rewriteHistoryL envSearchFail ({ role := "user", content := "raw question" } :: [])] :=
  run_rag_retrieval_failure_fatal envSearchFail reqU1 _ [] "rewritten query" 42 rfl
    (by decide) (by decide) (by decide)

/-- Claim C8 counterexample: on a concrete conversation where the
tool-enabled framework call comes back with empty content (its internal
tool rounds spent without a final answer), the agent orchestrator still
returns an ordinary result after its single framework call — it does not
fail with a round-limit error, which no code path of the repository
produces. -/
theorem run_rag_agent_no_round_limit_counterexample :
    run_rag_agent envNoFinal reqU1 =
      (Except.ok { content := "", execution_diagnostics := { steps := [] } },
       [CallEvent.readFile "RAGAgentSystemPrompt.txt",
        CallEvent.chatToolCall
          [{ role := Role.system, content := "SYS-AGENT" },
           { role := Role.user, content := "raw question" }]]) ∧
    (run_rag_agent envNoFinal reqU1).1 ≠ Except.error Err.agentRoundLimitExceeded := by
  constructor <;> decide

/-- Claim C8 (amended): for every non-empty conversation the agent
orchestrator issues exactly one tool-enabled framework call, on the agent
history, and passes that call's outcome through unchanged — it keeps no
round count of its own, so a round-limit error could only ever be the
verbatim outcome of the external framework call itself. -/
theorem run_rag_agent_single_framework_call {E : Type} (env : Env E)
    (request : ChatRequest) (m0 : ChatMessage) (ms : List ChatMessage)
    (hm : request.messages = m0 :: ms) :
    (run_rag_agent env request).2 =
      [CallEvent.readFile "RAGAgentSystemPrompt.txt",
       CallEvent.chatToolCall (agentHistoryL env (m0 :: ms))] ∧
    (run_rag_agent env request).1 =
      Except.map (fun s => { content := s, execution_diagnostics := { steps := [] } })
        (env.chatWithTools (agentHistoryL env (m0 :: ms))) := by
  cases hc : env.chatWithTools (agentHistoryL env (m0 :: ms)) <;>
    simp [run_rag_agent, hm, hc, Except.map]

/-- Claim C8 witness: the amended statement on the concrete one-turn
conversation against the all-succeeding environment. -/
theorem run_rag_agent_single_framework_call_witness :
    (run_rag_agent envA reqU1).2 =
      [CallEvent.readFile "RAGAgentSystemPrompt.txt",
       CallEvent.chatToolCall
         (agentHistoryL envA ({ role := "user", content := "raw question" } :: []))] ∧
    (run_rag_agent envA reqU1).1 =
      Except.map (fun s => { content := s, execution_diagnostics := { steps := [] } })
        (envA.chatWithTools
          (agentHistoryL envA ({ role := "user", content := "raw question" } :: []))) :=
  run_rag_agent_single_framework_call envA reqU1 _ [] rfl

/-- Claim C9 counterexample: when the conversation ends with an assistant
turn, the code takes that last message's content "B" as the question — the
generation call's grounded turn asks "Question: B" — although the literal
text of the conversation's final user turn is "A". -/
theorem run_rag_question_is_last_message_counterexample :
    chatCallsOf (run_rag envA reqUA).2 =
      [[{ role := Role.system, content := "SYS-SEARCH" },
        { role := Role.user, content := "A" },
        { role := Role.assistant, content := "B" }],
       [{ role := Role.system, content := "SYS-RAG" },
        { role := Role.user, content := "A" },
        { role := Role.user,
          content := "Sources:\n\n<source><name>ManualA</name><content>PassageA</content></source>\n\n\n\nQuestion: B" }]] ∧
    specFinalUserContent reqUA.messages = some "A" ∧ ("B" : String) ≠ "A" := by
  refine ⟨?_, ?_, ?_⟩ <;> decide

/-- Claim C9 (amended): for every non-empty conversation whose retrieval
step succeeds, the two plain chat calls are the rewrite call and the
generation call on the assembled history, and that assembled history is the
fixed RAG system prompt, then the user/assistant turns among all
conversation turns except the last one, then the grounded turn built from
the literal content of the conversation's final turn — whatever its role. -/
theorem run_rag_assembled_history {E : Type} (env : Env E)
    (request : ChatRequest) (m0 : ChatMessage) (ms : List ChatMessage)
    (q : String) (v : E) (docs : List SearchDoc)
    (hm : request.messages = m0 :: ms)
    (hq : env.chatComplete (rewriteHistoryL env (m0 :: ms)) = Except.ok q)
    (hv : env.embed q = Except.ok v)
    (hs : env.search v 5 10 = Except.ok docs) :
    chatCallsOf (run_rag env request).2 =
      [rewriteHistoryL env (m0 :: ms), generationHistoryL env (m0 :: ms) docs] ∧
    generationHistoryL env (m0 :: ms) docs =
      { role := Role.system, content := env.readFile "RAGSystemPrompt.txt" } ::
        ((m0 :: ms).dropLast.filterMap toHistTurn? ++
         [{ role := Role.user,
            content :=
              buildGroundedTurn ((m0 :: ms).getLastD defaultChatMessage).content docs }]) := by
  constructor
  · simp only [run_rag, hm, run_rag_core, hq, hv, hs]
    cases hg : env.chatComplete (generationHistoryL env (m0 :: ms) docs) <;>
      simp [hg, chatCallsOf]
  · simp [generationHistoryL, foldl_roleFilterAdd, addSystemMessage, addUserMessage]

/-- Claim C9 witness: the amended statement on the concrete conversation
that ends with an assistant turn. -/
theorem run_rag_assembled_history_witness :
    chatCallsOf (run_rag envA reqUA).2 =
      [rewriteHistoryL envA
         ({ role := "user", content := "A" } :: [{ role := "assistant", content := "B" }]),
       generationHistoryL envA
         ({ role := "user", content := "A" } :: [{ role := "assistant", content := "B" }]) [dA]] ∧
    generationHistoryL envA
        ({ role := "user", content := "A" } :: [{ role := "assistant", content := "B" }]) [dA] =
      { role := Role.system, content := envA.readFile "RAGSystemPrompt.txt" } ::
        ((({ role := "user", content := "A" } :: [{ role := "assistant", content := "B" }]) :
            List ChatMessage).dropLast.filterMap toHistTurn? ++
         [{ role := Role.user,
            content :=
              buildGroundedTurn
                ((({ role := "user", content := "A" } :: [{ role := "assistant", content := "B" }]) :
                    List ChatMessage).getLastD defaultChatMessage).content [dA] }]) :=
  run_rag_assembled_history envA reqUA _ [{ role := "assistant", content := "B" }]
    "rewritten query" 42 [dA] rfl (by decide) (by decide) (by decide)

/-- Claim C10 counterexample: on a conversation whose final turn has role
"system", the rewrite history silently drops that turn, yet its content "S"
does reach the generation call: the grounded turn of the generation history
asks "Question: S". -/
theorem system_turn_reaches_generation_counterexample :
    chatCallsOf (run_rag envA reqUS).2 =
      [[{ role := Role.system, content := "SYS-SEARCH" }, { role := Role.user, content := "A" }],
       [{ role := Role.system, content := "SYS-RAG" },
        { role := Role.user, content := "A" },
        { role := Role.user,
          content := "Sources:\n\n<source><name>ManualA</name><content>PassageA</content></source>\n\n\n\nQuestion: S" }]] ∧
    pyLower "system" ≠ "user" ∧ pyLower "system" ≠ "assistant" := by
  refine ⟨?_, ?_, ?_⟩ <;> decide

/-- Claim C10 (amended): a message whose lower-cased role is neither "user"
nor "assistant" contributes no turn of its own to any history built for a
model call — each history is its system prompt plus exactly the
role-filtered turns, and no error is raised for unknown roles — but the
content of the conversation's final message is used as the question of the
pipeline's grounded turn whatever its role. -/
theorem histories_drop_unknown_roles {E : Type} (env : Env E)
    (msgs : List ChatMessage) (docs : List SearchDoc) :
    rewriteHistoryL env msgs =
      { role := Role.system, content := env.readFile "RAGSearchSystemPrompt.txt" } ::
        msgs.filterMap toHistTurn? ∧
    agentHistoryL env msgs =
      { role := Role.system, content := env.readFile "RAGAgentSystemPrompt.txt" } ::
        msgs.filterMap toHistTurn? ∧
    generationHistoryL env msgs docs =
      { role := Role.system, content := env.readFile "RAGSystemPrompt.txt" } ::
        (msgs.dropLast.filterMap toHistTurn? ++
         [{ role := Role.user,
            content := buildGroundedTurn (msgs.getLastD defaultChatMessage).content docs }]) ∧
    ∀ m : ChatMessage, pyLower m.role ≠ "user" → pyLower m.role ≠ "assistant" →
      toHistTurn? m = none := by
  refine ⟨?_, ?_, ?_, ?_⟩
  · simp [rewriteHistoryL, foldl_roleFilterAdd, addSystemMessage]
  · simp [agentHistoryL, foldl_roleFilterAdd, addSystemMessage]
  · simp [generationHistoryL, foldl_roleFilterAdd, addSystemMessage, addUserMessage]
  · intro m h1 h2; simp [toHistTurn?, h1, h2]

/-- Claim C10 witness: the amended statement at a concrete message list
containing a system-role turn, whose filtered contribution is none. -/
theorem histories_drop_unknown_roles_witness :
    rewriteHistoryL envA [{ role := "system", content := "S" }] =
      { role := Role.system, content := envA.readFile "RAGSearchSystemPrompt.txt" } ::
        ([{ role := "system", content := "S" }] : List ChatMessage).filterMap toHistTurn? ∧
    toHistTurn? { role := "system", content := "S" } = none :=
  ⟨(histories_drop_unknown_roles envA [{ role := "system", content := "S" }] []).1,
   (histories_drop_unknown_roles envA [{ role := "system", content := "S" }] []).2.2.2
     { role := "system", content := "S" } (by decide) (by decide)⟩
